import Mathlib

/-!
Verification of the image-handler action pipeline, focused on the format and
watermark actions of src/processor/image/format.ts.

Modelling conventions for the TypeScript source:
* JavaScript numbers are modelled as exact rationals; the runtime value NaN is
  modelled explicitly by the `JNum` type (`Number.parseInt` returns NaN on
  non-numeric input, and every comparison against NaN is false).
* JavaScript strings are Lean `String`s; the per-character operations of the
  source (split on an underscore, startsWith, endsWith, charCodeAt) are
  modelled by structurally recursive functions over the character list so that
  all definitions evaluate inside the kernel.
* `Buffer.from(v, 'base64').toString('utf-8')` is modelled by keeping the
  decoded byte list: the source only ever tests the decoded string for
  emptiness or stores it opaquely, and the decoded UTF-8 string is empty
  exactly when the byte list is empty.
* Fallible code (`throw new InvalidArgument(...)`) is modelled with
  `Except String`; every throw in the modelled functions is an InvalidArgument.
* The sharp image handle and its effectful pipeline are abstracted by a type
  parameter together with explicit functions for the engine steps that
  `FormatAction.process` performs (metadata pages lookup, reopening at frame 0,
  encoder selection).
-/

/-- Decidable equality for `Except`, needed to evaluate the modelled fallible
functions on concrete inputs. -/
instance {ε α : Type} [DecidableEq ε] [DecidableEq α] : DecidableEq (Except ε α) :=
  fun a b =>
    match a, b with
    | Except.error e1, Except.error e2 =>
      if h : e1 = e2 then isTrue (by rw [h]) else isFalse (by intro hh; cases hh; exact h rfl)
    | Except.ok a1, Except.ok a2 =>
      if h : a1 = a2 then isTrue (by rw [h]) else isFalse (by intro hh; cases hh; exact h rfl)
    | Except.error _, Except.ok _ => isFalse (by intro h; cases h)
    | Except.ok _, Except.error _ => isFalse (by intro h; cases h)

/-- A JavaScript number: either NaN or a finite value (modelled as an exact
rational). -/
inductive JNum where
  | nan : JNum
  | num : ℚ → JNum
deriving DecidableEq

/-- JavaScript addition: NaN propagates. -/
def JNum.add : JNum → JNum → JNum
  | JNum.num a, JNum.num b => JNum.num (a + b)
  | _, _ => JNum.nan

/-- JavaScript subtraction: NaN propagates. -/
def JNum.sub : JNum → JNum → JNum
  | JNum.num a, JNum.num b => JNum.num (a - b)
  | _, _ => JNum.nan

/-- JavaScript comparison `x < c` against a constant: false when x is NaN. -/
def jltc (x : JNum) (c : ℚ) : Bool :=
  match x with
  | JNum.nan => false
  | JNum.num a => decide (a < c)

/-- JavaScript comparison `x > c` against a constant: false when x is NaN. -/
def jgtc (x : JNum) (c : ℚ) : Bool :=
  match x with
  | JNum.nan => false
  | JNum.num a => decide (a > c)

/-- JavaScript strict equality `x === c` against a number constant: false when
x is NaN. -/
def jeqc (x : JNum) (c : ℚ) : Bool :=
  match x with
  | JNum.nan => false
  | JNum.num a => decide (a = c)

/-- JavaScript comparison `x >= c` against a constant: false when x is NaN. -/
def jgec (x : JNum) (c : ℚ) : Bool :=
  match x with
  | JNum.nan => false
  | JNum.num a => decide (c ≤ a)

/-- JavaScript comparison `x <= c` against a constant: false when x is NaN. -/
def jlec (x : JNum) (c : ℚ) : Bool :=
  match x with
  | JNum.nan => false
  | JNum.num a => decide (a ≤ c)

/-- Truthiness of a JavaScript number: 0 and NaN are falsy. -/
def jtruthyN (x : JNum) : Bool :=
  match x with
  | JNum.nan => false
  | JNum.num a => decide (a ≠ 0)

/-- Truthiness of a possibly-undefined JavaScript number: undefined, 0 and NaN
are falsy. -/
def jtruthyO (x : Option JNum) : Bool :=
  match x with
  | none => false
  | some v => jtruthyN v

/-- Falsiness of a possibly-undefined JavaScript number. -/
def jfalsyO (x : Option JNum) : Bool := !(jtruthyO x)

/-- `Math.round`: round half toward positive infinity. -/
def jround (q : ℚ) : ℤ := ⌊q + 1 / 2⌋

/-- Split a character list at every occurrence of `sep`, keeping empty pieces,
as JavaScript `String.prototype.split` does. Auxiliary accumulator-passing
form. -/
def jsSplitAux (sep : Char) : List Char → List Char → List (List Char)
  | [], acc => [acc.reverse]
  | c :: rest, acc =>
    if c == sep then acc.reverse :: jsSplitAux sep rest []
    else jsSplitAux sep rest (c :: acc)

/-- JavaScript `s.split(sep)` for a one-character separator. -/
def jsSplit (sep : Char) (cs : List Char) : List (List Char) := jsSplitAux sep cs []

/-- Structural model of `String.startsWith`: `strStarts pre cs` holds when
`pre` is an initial segment of `cs`. -/
def strStarts : List Char → List Char → Bool
  | [], _ => true
  | _ :: _, [] => false
  | p :: ps, c :: cs => p == c && strStarts ps cs

/-- Structural model of `String.endsWith`: `strEnds suf cs` holds when `suf`
is a final segment of `cs`. -/
def strEnds (suf cs : List Char) : Bool := strStarts suf.reverse cs.reverse

/-- Decimal value of a digit list (the digits already filtered). -/
def digitsVal (ds : List Char) : ℕ := ds.foldl (fun a c => 10 * a + (c.toNat - 48)) 0

/-- Parse a leading run of decimal digits; NaN when there is none. -/
def jsParseIntDigits (cs : List Char) : JNum :=
  let ds := cs.takeWhile Char.isDigit
  if ds.isEmpty then JNum.nan else JNum.num (digitsVal ds)

/-- `Number.parseInt(s, 10)`: skip leading whitespace, allow one sign, parse
the longest run of decimal digits, NaN otherwise. -/
def jsParseInt (cs : List Char) : JNum :=
  let cs := cs.dropWhile (fun c => c == ' ' || c == '\t' || c == '\n' || c == '\r')
  match cs with
  | '-' :: rest =>
    match jsParseIntDigits rest with
    | JNum.num q => JNum.num (-q)
    | JNum.nan => JNum.nan
  | '+' :: rest => jsParseIntDigits rest
  | _ => jsParseIntDigits cs

/-- `Number.parseInt` applied to a possibly-undefined value: parseInt of
undefined is NaN. -/
def jsParseIntO (v : Option (List Char)) : JNum :=
  match v with
  | none => JNum.nan
  | some cs => jsParseInt cs

/-- Value of one base64 alphabet character; none for characters outside the
alphabet (Buffer.from ignores those). -/
def b64Val (c : Char) : Option ℕ :=
  if 'A' ≤ c ∧ c ≤ 'Z' then some (c.toNat - 65)
  else if 'a' ≤ c ∧ c ≤ 'z' then some (c.toNat - 71)
  else if '0' ≤ c ∧ c ≤ '9' then some (c.toNat + 4)
  else if c = '+' then some 62
  else if c = '/' then some 63
  else none

/-- Regroup 6-bit base64 values into 8-bit bytes, dropping a trailing group
that is too short to fill a byte. -/
def b64Group : List ℕ → List ℕ
  | a :: b :: c :: d :: rest =>
    (a * 4 + b / 16) :: ((b % 16) * 16 + c / 4) :: ((c % 4) * 64 + d) :: b64Group rest
  | [a, b, c] => [a * 4 + b / 16, (b % 16) * 16 + c / 4]
  | [a, b] => [a * 4 + b / 16]
  | _ => []

/-- `Buffer.from(s, 'base64')` as a byte list. -/
def b64Decode (cs : List Char) : List ℕ := b64Group (cs.filterMap b64Val)

/-- The fixed pixel margin of the watermark module (`const margin = 5`). -/
def margin : ℚ := 5

/-- `WatermarkOpts` of the source, with JavaScript numbers as `JNum`, the
optional x and y as `Option JNum`, and the base64-decoded text and image
values kept as byte lists. -/
structure WatermarkOpts where
  text : List ℕ
  t : JNum
  g : String
  fill : Bool
  rotate : JNum
  size : JNum
  color : Option String
  image : List ℕ
  auto : Bool
  x : Option JNum
  y : Option JNum
  voffset : JNum
  order : JNum
  interval : JNum
  align : JNum
deriving DecidableEq

/-- The default option record built at the top of `WatermarkAction.validate`. -/
def watermarkDefault : WatermarkOpts :=
  { text := [], t := JNum.num 100, g := "se", fill := false, rotate := JNum.num 0,
    size := JNum.num 40, color := some "000000", image := [], auto := true,
    x := none, y := none, voffset := JNum.num 0, order := JNum.num 0,
    interval := JNum.num 0, align := JNum.num 0 }

/-- `WatermarkTextOpts` of the source: estimated pixel size of the text. -/
structure WatermarkTextOpts where
  width : ℤ
  height : ℤ
deriving DecidableEq

/-- `WatermarkImgOpts` of the source: resolved absolute position, each axis
possibly left unresolved. -/
structure WatermarkImgOpts where
  x : Option JNum
  y : Option JNum
deriving DecidableEq

/-- `WatermarkMixedGravityOpts` of the source. -/
structure WatermarkMixedGravityOpts where
  imgGravity : String
  textGravity : String
deriving DecidableEq

/-- The width and height fields of a sharp metadata record: possibly undefined
numbers. -/
structure Metadata where
  width : Option ℚ
  height : Option ℚ
deriving DecidableEq

/-- `WatermarkAction.gravityConvert`: the nine accepted long forms (the source
list omits northeast), the four short aliases, and an InvalidArgument throw
for everything else. -/
def WatermarkAction.gravityConvert (param : String) : Except String String :=
  if param ∈ (["north", "west", "east", "south", "center", "centre",
      "southeast", "southwest", "northwest"] : List String) then Except.ok param
  else if param = "se" then Except.ok "southeast"
  else if param = "sw" then Except.ok "southwest"
  else if param = "nw" then Except.ok "northwest"
  else if param = "ne" then Except.ok "northeast"
  else Except.error
    "Watermark param g must be in north, west, east, south, center, centre, southeast, southwest, northwest"

/-- The key of one `key_value` token: head of the underscore split. -/
def wmKey (p : String) : List Char := (jsSplit '_' p.data).headD []

/-- The value of one `key_value` token: second element of the underscore
split, undefined when the token has no underscore. -/
def wmVal (p : String) : Option (List Char) := (jsSplit '_' p.data)[1]?

/-- Body of the per-token branch of `WatermarkAction.validate`, given the
already-split key and value. Mirrors the if/else chain of the source loop. -/
def wmApply (opt : WatermarkOpts) (k : List Char) (v : Option (List Char)) :
    Except String WatermarkOpts :=
  if k = "text".data then
    Except.ok (match v with
      | some s => if s ≠ [] then { opt with text := b64Decode s } else opt
      | none => opt)
  else if k = "image".data then
    Except.ok (match v with
      | some s => if s ≠ [] then { opt with image := b64Decode s } else opt
      | none => opt)
  else if k = "t".data then Except.ok { opt with t := jsParseIntO v }
  else if k = "x".data then
    if jltc (jsParseIntO v) 0 || jgtc (jsParseIntO v) 4096 then
      Except.error "Watermark param x must be between 0 and 4096"
    else Except.ok { opt with x := some (jsParseIntO v) }
  else if k = "y".data then
    if jltc (jsParseIntO v) 0 || jgtc (jsParseIntO v) 4096 then
      Except.error "Watermark param y must be between 0 and 4096"
    else Except.ok { opt with y := some (jsParseIntO v) }
  else if k = "voffset".data then
    if jltc (jsParseIntO v) (-1000) || jgtc (jsParseIntO v) 1000 then
      Except.error "Watermark param voffset must be between -1000 and 1000"
    else Except.ok { opt with voffset := jsParseIntO v }
  else if k = "order".data then Except.ok { opt with order := jsParseIntO v }
  else if k = "interval".data then
    if jltc (jsParseIntO v) 0 || jgtc (jsParseIntO v) 1000 then
      Except.error "Watermark param interval must be between 0 and 1000"
    else Except.ok { opt with interval := jsParseIntO v }
  else if k = "align".data then Except.ok { opt with align := jsParseIntO v }
  else if k = "g".data then
    match WatermarkAction.gravityConvert (String.mk (v.getD [])) with
    | Except.ok g => Except.ok { opt with g := g }
    | Except.error e => Except.error e
  else if k = "size".data then
    if jltc (jsParseIntO v) 0 || jgtc (jsParseIntO v) 1000 then
      Except.error "Watermark param size must be between 0 and 4096"
    else Except.ok { opt with size := jsParseIntO v }
  else if k = "fill".data then
    match v with
    | some s =>
      if s = ['0'] then Except.ok { opt with fill := false }
      else if s = ['1'] then Except.ok { opt with fill := true }
      else Except.error "Watermark param fill must be 0 or 1"
    | none => Except.error "Watermark param fill must be 0 or 1"
  else if k = "auto".data then
    match v with
    | some s =>
      if s = ['0'] then Except.ok { opt with auto := false }
      else if s = ['1'] then Except.ok { opt with auto := true }
      else Except.error "Watermark param auto must be 0 or 1"
    | none => Except.error "Watermark param auto must be 0 or 1"
  else if k = "rotate".data then
    if jgec (jsParseIntO v) 0 && jlec (jsParseIntO v) 360 then
      if jeqc (jsParseIntO v) 360 then Except.ok { opt with rotate := JNum.num 0 }
      else Except.ok { opt with rotate := jsParseIntO v }
    else Except.error "Watermark param rotate must be between 0 and 360"
  else if k = "color".data then Except.ok { opt with color := v.map String.mk }
  else Except.error "Unknown param"

/-- One iteration of the token loop of `WatermarkAction.validate`: the action
name itself and empty tokens are skipped, every other token is split at the
underscore and dispatched on its key. -/
def WatermarkAction.wmStep (opt : WatermarkOpts) (param : String) :
    Except String WatermarkOpts :=
  if param = "watermark" ∨ param = "" then Except.ok opt
  else wmApply opt (wmKey param) (wmVal param)

/-- `WatermarkAction.validate`: fold the token loop over the defaults, then
reject when both text and image came out empty. -/
def WatermarkAction.validate (params : List String) : Except String WatermarkOpts :=
  match params.foldlM WatermarkAction.wmStep watermarkDefault with
  | Except.error e => Except.error e
  | Except.ok opt =>
    if opt.text = [] ∧ opt.image = [] then
      Except.error "Watermark param text and image should not be empty at the same time"
    else Except.ok opt

/-- Per-character width of the loop body of `calculateTextSize`: a full font
size above character code 256, half above 97, 0.8 otherwise. -/
def WatermarkAction.charWidth (fontSize : ℚ) (c : Char) : ℚ :=
  if 256 < c.toNat then fontSize
  else if 97 < c.toNat then fontSize / 2
  else fontSize * 0.8

/-- Character class index used by the width heuristic: 0 above code 256, 1
above 97, 2 otherwise. -/
def charClass (c : Char) : ℕ :=
  if 256 < c.toNat then 0 else if 97 < c.toNat then 1 else 2

/-- `WatermarkAction.calculateTextSize`: accumulate the per-character widths,
add the margin and round; the height is the rounded 1.2 font sizes. -/
def WatermarkAction.calculateTextSize (text : String) (fontSize : ℚ) :
    WatermarkTextOpts :=
  let cWidth := text.data.foldl (fun acc c => acc + WatermarkAction.charWidth fontSize c) 0
  { width := jround (cWidth + margin), height := jround (fontSize * 1.2) }

/-- `WatermarkAction.calculateImgPos`, translated branch for branch: the
guard is the truthiness of the four metadata dimensions; `imgY` is set for
east/west/center gravities from the centered offset plus voffset, otherwise
from a truthy `opt.y` (flipped for south gravities); the north/south branch
centers `imgX` and replaces a falsy `imgY` with the top or bottom edge; any
other gravity takes `imgX` from a truthy `opt.x` (flipped for east gravities,
centered for center). -/
def WatermarkAction.calculateImgPos (opt : WatermarkOpts) (meta markMeta : Metadata) :
    WatermarkImgOpts :=
  match markMeta.width, meta.width, markMeta.height, meta.height with
  | some mw, some w, some mh, some h =>
    if mw ≠ 0 ∧ w ≠ 0 ∧ mh ≠ 0 ∧ h ≠ 0 then
      let imgY : Option JNum :=
        if opt.g ∈ (["east", "west", "center"] : List String) then
          some (JNum.add (JNum.num ((jround ((h - mh) / 2) : ℤ) : ℚ)) opt.voffset)
        else if jtruthyO opt.y then
          if strStarts "south".data opt.g.data then
            some (JNum.sub (JNum.num (h - mh)) (opt.y.getD JNum.nan))
          else opt.y
        else none
      if opt.g ∈ (["north", "south"] : List String) then
        { x := some (JNum.num ((jround ((w - mw) / 2) : ℤ) : ℚ)),
          y := if jfalsyO imgY then
              some (JNum.num (if opt.g = "north" then 0 else h - mh))
            else imgY }
      else
        { x :=
            if jtruthyO opt.x then
              if strEnds "east".data opt.g.data then
                some (JNum.sub (JNum.num (w - mw)) (opt.x.getD JNum.nan))
              else if opt.g = "center" then
                some (JNum.num ((jround ((w - mw) / 2) : ℤ) : ℚ))
              else opt.x
            else none,
          y := imgY }
    else { x := none, y := none }
  | _, _, _, _ => { x := none, y := none }

/-- Modelled from the claim wording for the gravity-to-position rule: the
vertical position is centered plus voffset for east/west/center, otherwise an
explicit (present) y is honored and flipped for south gravities; the
horizontal position is centered for north/south, otherwise an explicit
(present) x is honored, flipped for east gravities and centered for center.
This is the statement under test, not the source translation. -/
def calculateImgPosSpec (opt : WatermarkOpts) (meta markMeta : Metadata) :
    WatermarkImgOpts :=
  match markMeta.width, meta.width, markMeta.height, meta.height with
  | some mw, some w, some mh, some h =>
    { x :=
        if opt.g ∈ (["north", "south"] : List String) then
          some (JNum.num ((jround ((w - mw) / 2) : ℤ) : ℚ))
        else
          match opt.x with
          | some xv =>
            some (if strEnds "east".data opt.g.data then JNum.sub (JNum.num (w - mw)) xv
              else if opt.g = "center" then JNum.num ((jround ((w - mw) / 2) : ℤ) : ℚ)
              else xv)
          | none => none,
      y :=
        if opt.g ∈ (["east", "west", "center"] : List String) then
          some (JNum.add (JNum.num ((jround ((h - mh) / 2) : ℤ) : ℚ)) opt.voffset)
        else
          match opt.y with
          | some yv =>
            some (if strStarts "south".data opt.g.data then JNum.sub (JNum.num (h - mh)) yv
              else yv)
          | none => none }
  | _, _, _, _ => { x := none, y := none }

/-- The corrected flat description of `calculateImgPos`: same guard, the
vertical rule uses truthiness of `opt.y` and a north/south default for a falsy
intermediate result, the horizontal rule centers for north/south and uses
truthiness of `opt.x` otherwise. -/
def calculateImgPosAmendedDef (opt : WatermarkOpts) (meta markMeta : Metadata) :
    WatermarkImgOpts :=
  match markMeta.width, meta.width, markMeta.height, meta.height with
  | some mw, some w, some mh, some h =>
    if mw ≠ 0 ∧ w ≠ 0 ∧ mh ≠ 0 ∧ h ≠ 0 then
      let y1 : Option JNum :=
        if opt.g ∈ (["east", "west", "center"] : List String) then
          some (JNum.add (JNum.num ((jround ((h - mh) / 2) : ℤ) : ℚ)) opt.voffset)
        else if jtruthyO opt.y then
          if strStarts "south".data opt.g.data then
            some (JNum.sub (JNum.num (h - mh)) (opt.y.getD JNum.nan))
          else opt.y
        else none
      { x :=
          if opt.g ∈ (["north", "south"] : List String) then
            some (JNum.num ((jround ((w - mw) / 2) : ℤ) : ℚ))
          else if jtruthyO opt.x then
            if strEnds "east".data opt.g.data then
              some (JNum.sub (JNum.num (w - mw)) (opt.x.getD JNum.nan))
            else if opt.g = "center" then
              some (JNum.num ((jround ((w - mw) / 2) : ℤ) : ℚ))
            else opt.x
          else none,
        y :=
          if opt.g ∈ (["north", "south"] : List String) then
            if jfalsyO y1 then some (JNum.num (if opt.g = "north" then 0 else h - mh))
            else y1
          else y1 }
    else { x := none, y := none }
  | _, _, _, _ => { x := none, y := none }

/-- `WatermarkAction.calculateMixedGravity`: dispatch on order strictly equal
to 1 and align strictly equal to 1 or 2. -/
def WatermarkAction.calculateMixedGravity (opt : WatermarkOpts) :
    WatermarkMixedGravityOpts :=
  if jeqc opt.order 1 then
    if jeqc opt.align 1 then { imgGravity := "east", textGravity := "west" }
    else if jeqc opt.align 2 then { imgGravity := "southeast", textGravity := "southwest" }
    else { imgGravity := "northeast", textGravity := "northwest" }
  else
    if jeqc opt.align 1 then { imgGravity := "west", textGravity := "east" }
    else if jeqc opt.align 2 then { imgGravity := "southwest", textGravity := "southeast" }
    else { imgGravity := "northwest", textGravity := "northeast" }

/-- The default option record with only order and align set, for statements
about the mixed-gravity table. -/
def wmWithOrderAlign (o a : JNum) : WatermarkOpts :=
  { watermarkDefault with order := o, align := a }

/-- The six horizontally opposed anchor pairs of one vertical band. -/
def opposedAnchorPairs : List (String × String) :=
  [("northwest", "northeast"), ("west", "east"), ("southwest", "southeast"),
   ("northeast", "northwest"), ("east", "west"), ("southeast", "southwest")]

/-- `FormatOpts` of the source. -/
structure FormatOpts where
  format : String
deriving DecidableEq

/-- `SUPPORTED_FORMAT` of the source. -/
def SUPPORTED_FORMAT : List String := ["jpg", "jpeg", "png", "webp", "gif"]

/-- `FormatAction.validate`: exactly two tokens, the second a supported
format. -/
def FormatAction.validate (params : List String) : Except String FormatOpts :=
  if params.length ≠ 2 then
    Except.error "Format param error, e.g: format,jpg"
  else
    let fmt := (params[1]?).getD ""
    if fmt ∈ SUPPORTED_FORMAT then Except.ok { format := fmt }
    else Except.error "Format must be one of jpg,jpeg,png,webp,gif"

/-- The feature flags touched by the modelled actions. -/
structure ImageFeatures where
  autoWebp : Bool
  readAllAnimatedFrames : Bool
deriving DecidableEq

/-- The image context threaded through `process`: the current engine handle
(abstract) and the feature flags. -/
structure ImageCtx (α : Type) where
  image : α
  features : ImageFeatures
deriving DecidableEq

/-- `FormatAction.process`, with the engine steps abstracted: `metaPages`
reads the pages field of the source metadata, `openPage0` reopens the buffer
pinned to the first frame, `encode` switches the encoder of the handle. The
AutoWebp feature flag is cleared before validation; a gif target returns right
after validation; otherwise an animated source headed to a non-animated format
is reopened at frame 0, and the jpeg/png/webp encoder is selected. -/
def FormatAction.process {α : Type} (metaPages : α → Option ℕ) (openPage0 : α → α)
    (encode : String → α → α) (ctx : ImageCtx α) (params : List String) :
    Except String (ImageCtx α) :=
  let ctx1 := if ctx.features.autoWebp then
      { ctx with features := { ctx.features with autoWebp := false } }
    else ctx
  match FormatAction.validate params with
  | Except.error e => Except.error e
  | Except.ok opt =>
    if opt.format = "gif" then Except.ok ctx1
    else
      let srcImgIsAnimated := match metaPages ctx1.image with
        | some p => decide (0 < p)
        | none => false
      let notToAnimatedFormat := !(opt.format ∈ (["webp", "gif"] : List String))
      let ctx2 := if srcImgIsAnimated && notToAnimatedFormat then
          { ctx1 with image := openPage0 ctx1.image }
        else ctx1
      if opt.format = "jpeg" ∨ opt.format = "jpg" then
        Except.ok { ctx2 with image := encode "jpeg" ctx2.image }
      else if opt.format = "png" then
        Except.ok { ctx2 with image := encode "png" ctx2.image }
      else if opt.format = "webp" then
        Except.ok { ctx2 with image := encode "webp" ctx2.image }
      else Except.ok ctx2

/-- The option record produced for the token list of end-to-end scenario 1:
the text bytes are the UTF-8 encoding of the two decoded CJK characters, and
every other field keeps its default, in particular the gravity default se. -/
def wmScenario1Opt : WatermarkOpts :=
  { text := [228, 189, 160, 229, 165, 189], t := JNum.num 100, g := "se",
    fill := false, rotate := JNum.num 0, size := JNum.num 40,
    color := some "000000", image := [], auto := true, x := none, y := none,
    voffset := JNum.num 0, order := JNum.num 0, interval := JNum.num 0,
    align := JNum.num 0 }

/-- Concrete option record for probing the gravity-to-position rule: gravity
southwest with an explicit y of 0. -/
def imgPosCexOpt : WatermarkOpts :=
  { watermarkDefault with g := "southwest", y := some (JNum.num 0) }

/-- Concrete background metadata, 100 by 100. -/
def imgPosCexMeta : Metadata := { width := some 100, height := some 100 }

/-- Concrete watermark metadata, 20 by 20. -/
def imgPosCexMark : Metadata := { width := some 20, height := some 20 }

/-- Concrete pages oracle for the abstract image engine: no pages field. -/
def fmtNoPages : ℕ → Option ℕ := fun _ => none

/-- Concrete frame-0 reopen step for the abstract image engine. -/
def fmtPage0 : ℕ → ℕ := fun i => i + 100

/-- Concrete encoder-selection step for the abstract image engine. -/
def fmtEncode : String → ℕ → ℕ := fun _ i => i + 1

/-- Concrete image context with the AutoWebp feature flag set. -/
def fmtCtxCex : ImageCtx ℕ :=
  { image := 7, features := { autoWebp := true, readAllAnimatedFrames := true } }

/-- Whether an `Except` value is a success. -/
def exceptIsOk {ε α : Type} : Except ε α → Bool
  | Except.ok _ => true
  | Except.error _ => false

/-!  Helper lemmas. -/

/-- Accumulating the per-character widths is adding their sum. -/
theorem foldl_charWidth_eq (fs : ℚ) (l : List Char) : ∀ (a : ℚ),
    l.foldl (fun acc c => acc + WatermarkAction.charWidth fs c) a
      = a + (l.map (WatermarkAction.charWidth fs)).sum := by
  induction l with
  | nil => intro a; simp
  | cons c cs ih => intro a; simp [ih, add_assoc]

/-- Rounding half up is monotone. -/
theorem jround_mono {a b : ℚ} (h : a ≤ b) : jround a ≤ jround b :=
  Int.floor_le_floor (by linarith)

/-- The per-character width is monotone in the font size. -/
theorem charWidth_mono (c : Char) {fs fs2 : ℚ} (h : fs ≤ fs2) :
    WatermarkAction.charWidth fs c ≤ WatermarkAction.charWidth fs2 c := by
  unfold WatermarkAction.charWidth
  split_ifs <;> linarith

/-- The per-character width is nonnegative for a nonnegative font size. -/
theorem charWidth_nonneg (c : Char) {fs : ℚ} (h : 0 ≤ fs) :
    0 ≤ WatermarkAction.charWidth fs c := by
  unfold WatermarkAction.charWidth
  split_ifs <;> linarith

/-- The character data of an appended string is the appended data. -/
theorem strDataAppend (t s : String) : (t ++ s).data = t.data ++ s.data := by
  cases t; cases s; rfl

/-- A token whose key differs from the keys of the skipped tokens is neither
the action name nor empty. -/
theorem tok_ne_special {tok : String} {k : List Char} (h : wmKey tok = k)
    (h1 : wmKey "watermark" ≠ k) (h2 : wmKey "" ≠ k) :
    tok ≠ "watermark" ∧ tok ≠ "" := by
  refine ⟨?_, ?_⟩ <;> rintro rfl
  · exact h1 h
  · exact h2 h

/-- On a token that is neither the action name nor empty, the loop body
dispatches on the split key and value. -/
theorem wmStep_eq_apply {tok : String} (hne : tok ≠ "watermark") (hne2 : tok ≠ "")
    (o : WatermarkOpts) :
    WatermarkAction.wmStep o tok = wmApply o (wmKey tok) (wmVal tok) := by
  unfold WatermarkAction.wmStep
  rw [if_neg (fun h => h.elim hne hne2)]

/-- Evaluation of the dispatch at the key t. -/
theorem wmApply_t (o : WatermarkOpts) (v : Option (List Char)) :
    wmApply o "t".data v = Except.ok { o with t := jsParseIntO v } := rfl

/-- Evaluation of the dispatch at the key x. -/
theorem wmApply_x (o : WatermarkOpts) (v : Option (List Char)) :
    wmApply o "x".data v =
      (if jltc (jsParseIntO v) 0 || jgtc (jsParseIntO v) 4096 then
        Except.error "Watermark param x must be between 0 and 4096"
      else Except.ok { o with x := some (jsParseIntO v) }) := rfl

/-- Evaluation of the dispatch at the key y. -/
theorem wmApply_y (o : WatermarkOpts) (v : Option (List Char)) :
    wmApply o "y".data v =
      (if jltc (jsParseIntO v) 0 || jgtc (jsParseIntO v) 4096 then
        Except.error "Watermark param y must be between 0 and 4096"
      else Except.ok { o with y := some (jsParseIntO v) }) := rfl

/-- Evaluation of the dispatch at the key voffset. -/
theorem wmApply_voffset (o : WatermarkOpts) (v : Option (List Char)) :
    wmApply o "voffset".data v =
      (if jltc (jsParseIntO v) (-1000) || jgtc (jsParseIntO v) 1000 then
        Except.error "Watermark param voffset must be between -1000 and 1000"
      else Except.ok { o with voffset := jsParseIntO v }) := rfl

/-- Evaluation of the dispatch at the key interval. -/
theorem wmApply_interval (o : WatermarkOpts) (v : Option (List Char)) :
    wmApply o "interval".data v =
      (if jltc (jsParseIntO v) 0 || jgtc (jsParseIntO v) 1000 then
        Except.error "Watermark param interval must be between 0 and 1000"
      else Except.ok { o with interval := jsParseIntO v }) := rfl

/-- Evaluation of the dispatch at the key size. -/
theorem wmApply_size (o : WatermarkOpts) (v : Option (List Char)) :
    wmApply o "size".data v =
      (if jltc (jsParseIntO v) 0 || jgtc (jsParseIntO v) 1000 then
        Except.error "Watermark param size must be between 0 and 4096"
      else Except.ok { o with size := jsParseIntO v }) := rfl

/-- Evaluation of the dispatch at the key rotate. -/
theorem wmApply_rotate (o : WatermarkOpts) (v : Option (List Char)) :
    wmApply o "rotate".data v =
      (if jgec (jsParseIntO v) 0 && jlec (jsParseIntO v) 360 then
        if jeqc (jsParseIntO v) 360 then Except.ok { o with rotate := JNum.num 0 }
        else Except.ok { o with rotate := jsParseIntO v }
      else Except.error "Watermark param rotate must be between 0 and 360") := rfl

/-- A x token with a numeric value out of range makes the loop body throw. -/
theorem wmStep_x_error {tok : String} {n : ℚ} (hk : wmKey tok = "x".data)
    (hv : jsParseIntO (wmVal tok) = JNum.num n) (hout : n < 0 ∨ 4096 < n)
    (o : WatermarkOpts) :
    WatermarkAction.wmStep o tok = Except.error "Watermark param x must be between 0 and 4096" := by
  obtain ⟨hne, hne2⟩ := tok_ne_special hk (by decide) (by decide)
  rw [wmStep_eq_apply hne hne2, hk, wmApply_x, hv]
  have hc : (jltc (JNum.num n) 0 || jgtc (JNum.num n) 4096) = true := by
    rcases hout with h | h <;> simp [jltc, jgtc, h]
  rw [if_pos hc]

/-- A y token with a numeric value out of range makes the loop body throw. -/
theorem wmStep_y_error {tok : String} {n : ℚ} (hk : wmKey tok = "y".data)
    (hv : jsParseIntO (wmVal tok) = JNum.num n) (hout : n < 0 ∨ 4096 < n)
    (o : WatermarkOpts) :
    WatermarkAction.wmStep o tok = Except.error "Watermark param y must be between 0 and 4096" := by
  obtain ⟨hne, hne2⟩ := tok_ne_special hk (by decide) (by decide)
  rw [wmStep_eq_apply hne hne2, hk, wmApply_y, hv]
  have hc : (jltc (JNum.num n) 0 || jgtc (JNum.num n) 4096) = true := by
    rcases hout with h | h <;> simp [jltc, jgtc, h]
  rw [if_pos hc]

/-- A voffset token with a numeric value out of range makes the loop body
throw. -/
theorem wmStep_voffset_error {tok : String} {n : ℚ} (hk : wmKey tok = "voffset".data)
    (hv : jsParseIntO (wmVal tok) = JNum.num n) (hout : n < -1000 ∨ 1000 < n)
    (o : WatermarkOpts) :
    WatermarkAction.wmStep o tok
      = Except.error "Watermark param voffset must be between -1000 and 1000" := by
  obtain ⟨hne, hne2⟩ := tok_ne_special hk (by decide) (by decide)
  rw [wmStep_eq_apply hne hne2, hk, wmApply_voffset, hv]
  have hc : (jltc (JNum.num n) (-1000) || jgtc (JNum.num n) 1000) = true := by
    rcases hout with h | h <;> simp [jltc, jgtc, h]
  rw [if_pos hc]

/-- An interval token with a numeric value out of range makes the loop body
throw. -/
theorem wmStep_interval_error {tok : String} {n : ℚ} (hk : wmKey tok = "interval".data)
    (hv : jsParseIntO (wmVal tok) = JNum.num n) (hout : n < 0 ∨ 1000 < n)
    (o : WatermarkOpts) :
    WatermarkAction.wmStep o tok
      = Except.error "Watermark param interval must be between 0 and 1000" := by
  obtain ⟨hne, hne2⟩ := tok_ne_special hk (by decide) (by decide)
  rw [wmStep_eq_apply hne hne2, hk, wmApply_interval, hv]
  have hc : (jltc (JNum.num n) 0 || jgtc (JNum.num n) 1000) = true := by
    rcases hout with h | h <;> simp [jltc, jgtc, h]
  rw [if_pos hc]

/-- A size token with a numeric value out of range makes the loop body
throw. -/
theorem wmStep_size_error {tok : String} {n : ℚ} (hk : wmKey tok = "size".data)
    (hv : jsParseIntO (wmVal tok) = JNum.num n) (hout : n < 0 ∨ 1000 < n)
    (o : WatermarkOpts) :
    WatermarkAction.wmStep o tok
      = Except.error "Watermark param size must be between 0 and 4096" := by
  obtain ⟨hne, hne2⟩ := tok_ne_special hk (by decide) (by decide)
  rw [wmStep_eq_apply hne hne2, hk, wmApply_size, hv]
  have hc : (jltc (JNum.num n) 0 || jgtc (JNum.num n) 1000) = true := by
    rcases hout with h | h <;> simp [jltc, jgtc, h]
  rw [if_pos hc]

/-- A rotate token with a numeric value out of range makes the loop body
throw. -/
theorem wmStep_rotate_error {tok : String} {n : ℚ} (hk : wmKey tok = "rotate".data)
    (hv : jsParseIntO (wmVal tok) = JNum.num n) (hout : n < 0 ∨ 360 < n)
    (o : WatermarkOpts) :
    WatermarkAction.wmStep o tok
      = Except.error "Watermark param rotate must be between 0 and 360" := by
  obtain ⟨hne, hne2⟩ := tok_ne_special hk (by decide) (by decide)
  have hc : (jgec (JNum.num n) 0 && jlec (JNum.num n) 360) = false := by
    simp only [jgec, jlec, Bool.and_eq_false_iff, decide_eq_false_iff_not, not_le]
    rcases hout with h | h
    exacts [Or.inl h, Or.inr h]
  rw [wmStep_eq_apply hne hne2, hk, wmApply_rotate, hv, hc]
  rfl

/-- A rotate token with value 360 is accepted and normalizes to 0. -/
theorem wmStep_rotate_360 {tok : String} (hk : wmKey tok = "rotate".data)
    (hv : jsParseIntO (wmVal tok) = JNum.num 360) (o : WatermarkOpts) :
    WatermarkAction.wmStep o tok = Except.ok { o with rotate := JNum.num 0 } := by
  obtain ⟨hne, hne2⟩ := tok_ne_special hk (by decide) (by decide)
  rw [wmStep_eq_apply hne hne2, hk, wmApply_rotate, hv]
  rfl

/-- An in-range rotate token below 360 is stored unchanged. -/
theorem wmStep_rotate_store {tok : String} {n : ℚ} (hk : wmKey tok = "rotate".data)
    (hv : jsParseIntO (wmVal tok) = JNum.num n) (h0 : 0 ≤ n) (h1 : n < 360)
    (o : WatermarkOpts) :
    WatermarkAction.wmStep o tok = Except.ok { o with rotate := JNum.num n } := by
  obtain ⟨hne, hne2⟩ := tok_ne_special hk (by decide) (by decide)
  have hc : (jgec (JNum.num n) 0 && jlec (JNum.num n) 360) = true := by
    simp only [jgec, jlec, Bool.and_eq_true, decide_eq_true_eq]
    exact ⟨h0, by linarith⟩
  have hc2 : jeqc (JNum.num n) 360 = false := by
    simp only [jeqc, decide_eq_false_iff_not]
    intro h
    rw [h] at h1
    linarith
  rw [wmStep_eq_apply hne hne2, hk, wmApply_rotate, hv, hc, hc2]
  rfl

/-- An in-range x token is stored unchanged. -/
theorem wmStep_x_store {tok : String} {n : ℚ} (hk : wmKey tok = "x".data)
    (hv : jsParseIntO (wmVal tok) = JNum.num n) (h0 : 0 ≤ n) (h1 : n ≤ 4096)
    (o : WatermarkOpts) :
    WatermarkAction.wmStep o tok = Except.ok { o with x := some (JNum.num n) } := by
  obtain ⟨hne, hne2⟩ := tok_ne_special hk (by decide) (by decide)
  rw [wmStep_eq_apply hne hne2, hk, wmApply_x, hv]
  have hc : (jltc (JNum.num n) 0 || jgtc (JNum.num n) 4096) = false := by
    simp only [jltc, jgtc, Bool.or_eq_false_iff, decide_eq_false_iff_not, not_lt, gt_iff_lt]
    exact ⟨h0, h1⟩
  rw [hc]
  rfl

/-- An in-range y token is stored unchanged. -/
theorem wmStep_y_store {tok : String} {n : ℚ} (hk : wmKey tok = "y".data)
    (hv : jsParseIntO (wmVal tok) = JNum.num n) (h0 : 0 ≤ n) (h1 : n ≤ 4096)
    (o : WatermarkOpts) :
    WatermarkAction.wmStep o tok = Except.ok { o with y := some (JNum.num n) } := by
  obtain ⟨hne, hne2⟩ := tok_ne_special hk (by decide) (by decide)
  rw [wmStep_eq_apply hne hne2, hk, wmApply_y, hv]
  have hc : (jltc (JNum.num n) 0 || jgtc (JNum.num n) 4096) = false := by
    simp only [jltc, jgtc, Bool.or_eq_false_iff, decide_eq_false_iff_not, not_lt, gt_iff_lt]
    exact ⟨h0, h1⟩
  rw [hc]
  rfl

/-- An in-range voffset token is stored unchanged. -/
theorem wmStep_voffset_store {tok : String} {n : ℚ} (hk : wmKey tok = "voffset".data)
    (hv : jsParseIntO (wmVal tok) = JNum.num n) (h0 : -1000 ≤ n) (h1 : n ≤ 1000)
    (o : WatermarkOpts) :
    WatermarkAction.wmStep o tok = Except.ok { o with voffset := JNum.num n } := by
  obtain ⟨hne, hne2⟩ := tok_ne_special hk (by decide) (by decide)
  rw [wmStep_eq_apply hne hne2, hk, wmApply_voffset, hv]
  have hc : (jltc (JNum.num n) (-1000) || jgtc (JNum.num n) 1000) = false := by
    simp only [jltc, jgtc, Bool.or_eq_false_iff, decide_eq_false_iff_not, not_lt, gt_iff_lt]
    exact ⟨h0, h1⟩
  rw [hc]
  rfl

/-- An in-range interval token is stored unchanged. -/
theorem wmStep_interval_store {tok : String} {n : ℚ} (hk : wmKey tok = "interval".data)
    (hv : jsParseIntO (wmVal tok) = JNum.num n) (h0 : 0 ≤ n) (h1 : n ≤ 1000)
    (o : WatermarkOpts) :
    WatermarkAction.wmStep o tok = Except.ok { o with interval := JNum.num n } := by
  obtain ⟨hne, hne2⟩ := tok_ne_special hk (by decide) (by decide)
  rw [wmStep_eq_apply hne hne2, hk, wmApply_interval, hv]
  have hc : (jltc (JNum.num n) 0 || jgtc (JNum.num n) 1000) = false := by
    simp only [jltc, jgtc, Bool.or_eq_false_iff, decide_eq_false_iff_not, not_lt, gt_iff_lt]
    exact ⟨h0, h1⟩
  rw [hc]
  rfl

/-- An in-range size token is stored unchanged. -/
theorem wmStep_size_store {tok : String} {n : ℚ} (hk : wmKey tok = "size".data)
    (hv : jsParseIntO (wmVal tok) = JNum.num n) (h0 : 0 ≤ n) (h1 : n ≤ 1000)
    (o : WatermarkOpts) :
    WatermarkAction.wmStep o tok = Except.ok { o with size := JNum.num n } := by
  obtain ⟨hne, hne2⟩ := tok_ne_special hk (by decide) (by decide)
  rw [wmStep_eq_apply hne hne2, hk, wmApply_size, hv]
  have hc : (jltc (JNum.num n) 0 || jgtc (JNum.num n) 1000) = false := by
    simp only [jltc, jgtc, Bool.or_eq_false_iff, decide_eq_false_iff_not, not_lt, gt_iff_lt]
    exact ⟨h0, h1⟩
  rw [hc]
  rfl

/-- A t token is stored without any range check. -/
theorem wmStep_t_store {tok : String} (hk : wmKey tok = "t".data) (o : WatermarkOpts) :
    WatermarkAction.wmStep o tok = Except.ok { o with t := jsParseIntO (wmVal tok) } := by
  obtain ⟨hne, hne2⟩ := tok_ne_special hk (by decide) (by decide)
  rw [wmStep_eq_apply hne hne2, hk, wmApply_t]

/-- If some token of the list makes the loop body throw on every incoming
record, the whole validation throws. -/
theorem validate_error_of_mem {ps : List String} {tok : String} (hmem : tok ∈ ps)
    (herr : ∀ o, ∃ m, WatermarkAction.wmStep o tok = Except.error m) :
    ∃ m, WatermarkAction.validate ps = Except.error m := by
  have h : ∀ (ps2 : List String), tok ∈ ps2 →
      ∀ o, ∃ m, ps2.foldlM WatermarkAction.wmStep o = Except.error m := by
    intro ps2
    induction ps2 with
    | nil => intro hmem2; exact absurd hmem2 (List.not_mem_nil tok)
    | cons p rest ih =>
      intro hmem2 o
      rw [List.foldlM_cons]
      rcases List.mem_cons.mp hmem2 with rfl | hmem3
      · obtain ⟨m, hm⟩ := herr o
        rw [hm]
        exact ⟨m, rfl⟩
      · cases hstep : WatermarkAction.wmStep o p with
        | error e => exact ⟨e, rfl⟩
        | ok o2 =>
          obtain ⟨m, hm⟩ := ih hmem3 o2
          exact ⟨m, hm⟩
  obtain ⟨m, hm⟩ := h ps hmem watermarkDefault
  exact ⟨m, by unfold WatermarkAction.validate; rw [hm]⟩

/-!  Claim theorems. -/

/-- Claim C1, counterexample: on the token list of scenario 1 validate
succeeds, but the returned gravity is the unconverted short default se, not
southeast as claimed. -/
theorem watermark_validate_scenario1_cex :
    WatermarkAction.validate ["watermark", "text_5L2g5aW9"] = Except.ok wmScenario1Opt ∧
    wmScenario1Opt.g ≠ "southeast" := ⟨by decide, by decide⟩

/-- Claim C1 (amended): validate on the token list of scenario 1 succeeds and
returns the defaults t=100, fill=false, rotate=0, size=40, color=000000,
auto=true, with the gravity default stored as the short alias se. -/
theorem watermark_validate_scenario1_amended :
    WatermarkAction.validate ["watermark", "text_5L2g5aW9"] = Except.ok wmScenario1Opt ∧
    wmScenario1Opt.t = JNum.num 100 ∧ wmScenario1Opt.g = "se" ∧
    wmScenario1Opt.fill = false ∧ wmScenario1Opt.rotate = JNum.num 0 ∧
    wmScenario1Opt.size = JNum.num 40 ∧ wmScenario1Opt.color = some "000000" ∧
    wmScenario1Opt.auto = true := by decide

/-- Claim C2, counterexample: the long form northeast is not accepted by
gravityConvert; it is rejected like any unknown string. -/
theorem gravityConvert_northeast_cex :
    WatermarkAction.gravityConvert "northeast" ≠ Except.ok "northeast" ∧
    exceptIsOk (WatermarkAction.gravityConvert "northeast") = false := ⟨by decide, by decide⟩

/-- Claim C2 (amended): gravityConvert returns the nine long forms of its
source list (northeast is not among them) unchanged, maps each short alias
se, sw, nw, ne to its long form, and raises InvalidArgument for every other
string, including northeast. -/
theorem gravityConvert_amended (s : String) :
    (s ∈ (["north", "west", "east", "south", "center", "centre", "southeast",
        "southwest", "northwest"] : List String) →
      WatermarkAction.gravityConvert s = Except.ok s) ∧
    (WatermarkAction.gravityConvert "se" = Except.ok "southeast" ∧
     WatermarkAction.gravityConvert "sw" = Except.ok "southwest" ∧
     WatermarkAction.gravityConvert "nw" = Except.ok "northwest" ∧
     WatermarkAction.gravityConvert "ne" = Except.ok "northeast") ∧
    (s ∉ (["north", "west", "east", "south", "center", "centre", "southeast",
        "southwest", "northwest"] : List String) →
      s ≠ "se" → s ≠ "sw" → s ≠ "nw" → s ≠ "ne" →
      exceptIsOk (WatermarkAction.gravityConvert s) = false) := by
  refine ⟨?_, ⟨by decide, by decide, by decide, by decide⟩, ?_⟩
  · intro h
    unfold WatermarkAction.gravityConvert
    rw [if_pos h]
  · intro h1 h2 h3 h4 h5
    unfold WatermarkAction.gravityConvert
    rw [if_neg h1, if_neg h2, if_neg h3, if_neg h4, if_neg h5]
    rfl

/-- Witness for the amended claim C2 at concrete inputs. -/
theorem gravityConvert_amended_witness :
    WatermarkAction.gravityConvert "north" = Except.ok "north" ∧
    WatermarkAction.gravityConvert "se" = Except.ok "southeast" ∧
    exceptIsOk (WatermarkAction.gravityConvert "diagonal") = false :=
  ⟨(gravityConvert_amended "north").1 (by decide),
   (gravityConvert_amended "north").2.1.1,
   (gravityConvert_amended "diagonal").2.2 (by decide) (by decide) (by decide)
     (by decide) (by decide)⟩

/-- Claim C6: the mixed-gravity table has exactly the six claimed entries. -/
theorem calculateMixedGravity_table :
    WatermarkAction.calculateMixedGravity (wmWithOrderAlign (JNum.num 0) (JNum.num 0))
      = { imgGravity := "northwest", textGravity := "northeast" } ∧
    WatermarkAction.calculateMixedGravity (wmWithOrderAlign (JNum.num 0) (JNum.num 1))
      = { imgGravity := "west", textGravity := "east" } ∧
    WatermarkAction.calculateMixedGravity (wmWithOrderAlign (JNum.num 0) (JNum.num 2))
      = { imgGravity := "southwest", textGravity := "southeast" } ∧
    WatermarkAction.calculateMixedGravity (wmWithOrderAlign (JNum.num 1) (JNum.num 0))
      = { imgGravity := "northeast", textGravity := "northwest" } ∧
    WatermarkAction.calculateMixedGravity (wmWithOrderAlign (JNum.num 1) (JNum.num 1))
      = { imgGravity := "east", textGravity := "west" } ∧
    WatermarkAction.calculateMixedGravity (wmWithOrderAlign (JNum.num 1) (JNum.num 2))
      = { imgGravity := "southeast", textGravity := "southwest" } := by decide

/-- Claim C7: the estimated width is the rounded margin plus per-character
width sum, the height is the rounded 1.2 font sizes and does not depend on the
text. -/
theorem calculateTextSize_formula (t t2 : String) (fs : ℚ) :
    (WatermarkAction.calculateTextSize t fs).width
      = jround (margin + (t.data.map (fun c =>
          if 256 < c.toNat then fs else if 97 < c.toNat then fs / 2 else fs * 0.8)).sum) ∧
    (WatermarkAction.calculateTextSize t fs).height = jround (fs * 1.2) ∧
    (WatermarkAction.calculateTextSize t fs).height
      = (WatermarkAction.calculateTextSize t2 fs).height := by
  refine ⟨?_, rfl, rfl⟩
  unfold WatermarkAction.calculateTextSize
  simp only [foldl_charWidth_eq, zero_add]
  rw [add_comm]
  rfl

/-- Claim C8: for a nonnegative font size both text metrics are monotone in
the font size, and the width is monotone under appending characters of one
character class. -/
theorem calculateTextSize_monotone (t s : String) (fs fs2 : ℚ)
    (h0 : 0 ≤ fs) (hle : fs ≤ fs2)
    (_hclass : ∃ k, ∀ c ∈ s.data, charClass c = k) :
    ((WatermarkAction.calculateTextSize t fs).width
        ≤ (WatermarkAction.calculateTextSize t fs2).width ∧
      (WatermarkAction.calculateTextSize t fs).height
        ≤ (WatermarkAction.calculateTextSize t fs2).height) ∧
    (WatermarkAction.calculateTextSize t fs).width
      ≤ (WatermarkAction.calculateTextSize (t ++ s) fs).width := by
  refine ⟨⟨?_, ?_⟩, ?_⟩
  · unfold WatermarkAction.calculateTextSize
    simp only [foldl_charWidth_eq, zero_add]
    refine jround_mono (add_le_add_right ?_ margin)
    exact List.sum_le_sum (fun c _ => charWidth_mono c hle)
  · exact jround_mono (by linarith)
  · unfold WatermarkAction.calculateTextSize
    simp only [foldl_charWidth_eq, zero_add, strDataAppend, List.map_append,
      List.sum_append]
    refine jround_mono (add_le_add_right ?_ margin)
    have hs : 0 ≤ ((s.data.map (WatermarkAction.charWidth fs)).sum) := by
      refine List.sum_nonneg ?_
      intro q hq
      obtain ⟨c, _, rfl⟩ := List.mem_map.mp hq
      exact charWidth_nonneg c h0
    linarith

/-- Witness for claim C8 at concrete inputs. -/
theorem calculateTextSize_monotone_witness :
    ((WatermarkAction.calculateTextSize "ab" 10).width
        ≤ (WatermarkAction.calculateTextSize "ab" 20).width ∧
      (WatermarkAction.calculateTextSize "ab" 10).height
        ≤ (WatermarkAction.calculateTextSize "ab" 20).height) ∧
    (WatermarkAction.calculateTextSize "ab" 10).width
      ≤ (WatermarkAction.calculateTextSize ("ab" ++ "XY") 10).width :=
  ⟨(calculateTextSize_monotone "ab" "XY" 10 20 (by norm_num) (by norm_num)
      ⟨2, by decide⟩).1,
   (calculateTextSize_monotone "ab" "XY" 10 20 (by norm_num) (by norm_num)
      ⟨2, by decide⟩).2⟩

/-- Claim C3, counterexample: a token list with the out-of-range opacity
t=200 passes validation and stores 200, so opacity is not range-checked. -/
theorem watermark_opacity_unchecked_cex :
    WatermarkAction.validate ["watermark", "text_5L2g5aW9", "t_200"]
      = Except.ok { wmScenario1Opt with t := JNum.num 200 } := by decide

/-- Claim C3 (amended): the bounded numeric options x, y, voffset, interval,
size and rotate are range-checked by validate, in the sense that any token
list containing a token with such a key and an out-of-range numeric value is
rejected with InvalidArgument; the opacity t is stored without any range
check. -/
theorem watermark_range_checks_amended :
    (∀ (ps : List String) (tok : String) (n : ℚ), tok ∈ ps →
      jsParseIntO (wmVal tok) = JNum.num n →
      ((wmKey tok = "x".data → (n < 0 ∨ 4096 < n) →
          ∃ m, WatermarkAction.validate ps = Except.error m) ∧
       (wmKey tok = "y".data → (n < 0 ∨ 4096 < n) →
          ∃ m, WatermarkAction.validate ps = Except.error m) ∧
       (wmKey tok = "voffset".data → (n < -1000 ∨ 1000 < n) →
          ∃ m, WatermarkAction.validate ps = Except.error m) ∧
       (wmKey tok = "interval".data → (n < 0 ∨ 1000 < n) →
          ∃ m, WatermarkAction.validate ps = Except.error m) ∧
       (wmKey tok = "size".data → (n < 0 ∨ 1000 < n) →
          ∃ m, WatermarkAction.validate ps = Except.error m) ∧
       (wmKey tok = "rotate".data → (n < 0 ∨ 360 < n) →
          ∃ m, WatermarkAction.validate ps = Except.error m))) ∧
    (∀ (o : WatermarkOpts) (tok : String), wmKey tok = "t".data →
      WatermarkAction.wmStep o tok = Except.ok { o with t := jsParseIntO (wmVal tok) }) := by
  refine ⟨?_, fun o tok hk => wmStep_t_store hk o⟩
  intro ps tok n hmem hv
  exact ⟨fun hk hout => validate_error_of_mem hmem (fun o => ⟨_, wmStep_x_error hk hv hout o⟩),
    fun hk hout => validate_error_of_mem hmem (fun o => ⟨_, wmStep_y_error hk hv hout o⟩),
    fun hk hout => validate_error_of_mem hmem (fun o => ⟨_, wmStep_voffset_error hk hv hout o⟩),
    fun hk hout => validate_error_of_mem hmem (fun o => ⟨_, wmStep_interval_error hk hv hout o⟩),
    fun hk hout => validate_error_of_mem hmem (fun o => ⟨_, wmStep_size_error hk hv hout o⟩),
    fun hk hout => validate_error_of_mem hmem (fun o => ⟨_, wmStep_rotate_error hk hv hout o⟩)⟩

/-- Witness for the amended claim C3 at concrete inputs. -/
theorem watermark_range_checks_amended_witness :
    (∃ m, WatermarkAction.validate ["watermark", "text_5L2g5aW9", "voffset_2000"]
      = Except.error m) ∧
    WatermarkAction.wmStep watermarkDefault "t_500"
      = Except.ok { watermarkDefault with t := JNum.num 500 } := by
  constructor
  · exact (watermark_range_checks_amended.1 ["watermark", "text_5L2g5aW9", "voffset_2000"]
      "voffset_2000" 2000 (by decide) (by decide)).2.2.1 (by decide) (by norm_num)
  · exact (watermark_range_checks_amended.2 watermarkDefault "t_500" (by decide)).trans
      (by decide)

/-- Claim C4: rotate 360 is accepted and normalized to 0; out-of-range
rotate, x, y, voffset, interval or size values each make validate raise
InvalidArgument on any token list containing them; in-range values are stored
unchanged. -/
theorem watermark_bounds_confirmed :
    (∀ (o : WatermarkOpts) (tok : String), wmKey tok = "rotate".data →
      jsParseIntO (wmVal tok) = JNum.num 360 →
      WatermarkAction.wmStep o tok = Except.ok { o with rotate := JNum.num 0 }) ∧
    (∀ (o : WatermarkOpts) (tok : String) (n : ℚ), wmKey tok = "rotate".data →
      jsParseIntO (wmVal tok) = JNum.num n → 0 ≤ n → n < 360 →
      WatermarkAction.wmStep o tok = Except.ok { o with rotate := JNum.num n }) ∧
    (∀ (o : WatermarkOpts) (tok : String) (n : ℚ), wmKey tok = "x".data →
      jsParseIntO (wmVal tok) = JNum.num n → 0 ≤ n → n ≤ 4096 →
      WatermarkAction.wmStep o tok = Except.ok { o with x := some (JNum.num n) }) ∧
    (∀ (o : WatermarkOpts) (tok : String) (n : ℚ), wmKey tok = "y".data →
      jsParseIntO (wmVal tok) = JNum.num n → 0 ≤ n → n ≤ 4096 →
      WatermarkAction.wmStep o tok = Except.ok { o with y := some (JNum.num n) }) ∧
    (∀ (o : WatermarkOpts) (tok : String) (n : ℚ), wmKey tok = "voffset".data →
      jsParseIntO (wmVal tok) = JNum.num n → -1000 ≤ n → n ≤ 1000 →
      WatermarkAction.wmStep o tok = Except.ok { o with voffset := JNum.num n }) ∧
    (∀ (o : WatermarkOpts) (tok : String) (n : ℚ), wmKey tok = "interval".data →
      jsParseIntO (wmVal tok) = JNum.num n → 0 ≤ n → n ≤ 1000 →
      WatermarkAction.wmStep o tok = Except.ok { o with interval := JNum.num n }) ∧
    (∀ (o : WatermarkOpts) (tok : String) (n : ℚ), wmKey tok = "size".data →
      jsParseIntO (wmVal tok) = JNum.num n → 0 ≤ n → n ≤ 1000 →
      WatermarkAction.wmStep o tok = Except.ok { o with size := JNum.num n }) ∧
    (∀ (ps : List String) (tok : String) (n : ℚ), tok ∈ ps →
      jsParseIntO (wmVal tok) = JNum.num n →
      ((wmKey tok = "rotate".data → (n < 0 ∨ 360 < n) →
          ∃ m, WatermarkAction.validate ps = Except.error m) ∧
       (wmKey tok = "x".data → (n < 0 ∨ 4096 < n) →
          ∃ m, WatermarkAction.validate ps = Except.error m) ∧
       (wmKey tok = "y".data → (n < 0 ∨ 4096 < n) →
          ∃ m, WatermarkAction.validate ps = Except.error m) ∧
       (wmKey tok = "voffset".data → (n < -1000 ∨ 1000 < n) →
          ∃ m, WatermarkAction.validate ps = Except.error m) ∧
       (wmKey tok = "interval".data → (n < 0 ∨ 1000 < n) →
          ∃ m, WatermarkAction.validate ps = Except.error m) ∧
       (wmKey tok = "size".data → (n < 0 ∨ 1000 < n) →
          ∃ m, WatermarkAction.validate ps = Except.error m))) := by
  refine ⟨fun o tok hk hv => wmStep_rotate_360 hk hv o,
    fun o tok n hk hv h0 h1 => wmStep_rotate_store hk hv h0 h1 o,
    fun o tok n hk hv h0 h1 => wmStep_x_store hk hv h0 h1 o,
    fun o tok n hk hv h0 h1 => wmStep_y_store hk hv h0 h1 o,
    fun o tok n hk hv h0 h1 => wmStep_voffset_store hk hv h0 h1 o,
    fun o tok n hk hv h0 h1 => wmStep_interval_store hk hv h0 h1 o,
    fun o tok n hk hv h0 h1 => wmStep_size_store hk hv h0 h1 o,
    ?_⟩
  intro ps tok n hmem hv
  exact ⟨fun hk hout => validate_error_of_mem hmem (fun o => ⟨_, wmStep_rotate_error hk hv hout o⟩),
    fun hk hout => validate_error_of_mem hmem (fun o => ⟨_, wmStep_x_error hk hv hout o⟩),
    fun hk hout => validate_error_of_mem hmem (fun o => ⟨_, wmStep_y_error hk hv hout o⟩),
    fun hk hout => validate_error_of_mem hmem (fun o => ⟨_, wmStep_voffset_error hk hv hout o⟩),
    fun hk hout => validate_error_of_mem hmem (fun o => ⟨_, wmStep_interval_error hk hv hout o⟩),
    fun hk hout => validate_error_of_mem hmem (fun o => ⟨_, wmStep_size_error hk hv hout o⟩)⟩

/-- Witness for claim C4 at concrete inputs: one stored in-range value per
checked option, the rotate-360 normalization, and one rejected out-of-range
token list per checked option. -/
theorem watermark_bounds_confirmed_witness :
    WatermarkAction.wmStep watermarkDefault "rotate_360"
      = Except.ok { watermarkDefault with rotate := JNum.num 0 } ∧
    WatermarkAction.wmStep watermarkDefault "rotate_45"
      = Except.ok { watermarkDefault with rotate := JNum.num 45 } ∧
    WatermarkAction.wmStep watermarkDefault "x_100"
      = Except.ok { watermarkDefault with x := some (JNum.num 100) } ∧
    WatermarkAction.wmStep watermarkDefault "y_4096"
      = Except.ok { watermarkDefault with y := some (JNum.num 4096) } ∧
    WatermarkAction.wmStep watermarkDefault "voffset_-500"
      = Except.ok { watermarkDefault with voffset := JNum.num (-500) } ∧
    WatermarkAction.wmStep watermarkDefault "interval_1000"
      = Except.ok { watermarkDefault with interval := JNum.num 1000 } ∧
    WatermarkAction.wmStep watermarkDefault "size_12"
      = Except.ok { watermarkDefault with size := JNum.num 12 } ∧
    (∃ m, WatermarkAction.validate ["watermark", "text_5L2g5aW9", "rotate_361"]
      = Except.error m) ∧
    (∃ m, WatermarkAction.validate ["watermark", "text_5L2g5aW9", "x_5000"]
      = Except.error m) ∧
    (∃ m, WatermarkAction.validate ["watermark", "text_5L2g5aW9", "y_5000"]
      = Except.error m) ∧
    (∃ m, WatermarkAction.validate ["watermark", "text_5L2g5aW9", "voffset_-1001"]
      = Except.error m) ∧
    (∃ m, WatermarkAction.validate ["watermark", "text_5L2g5aW9", "interval_1001"]
      = Except.error m) ∧
    (∃ m, WatermarkAction.validate ["watermark", "text_5L2g5aW9", "size_1001"]
      = Except.error m) := by
  refine ⟨watermark_bounds_confirmed.1 watermarkDefault "rotate_360" (by decide) (by decide),
    watermark_bounds_confirmed.2.1 watermarkDefault "rotate_45" 45 (by decide) (by decide)
      (by norm_num) (by norm_num),
    watermark_bounds_confirmed.2.2.1 watermarkDefault "x_100" 100 (by decide) (by decide)
      (by norm_num) (by norm_num),
    watermark_bounds_confirmed.2.2.2.1 watermarkDefault "y_4096" 4096 (by decide) (by decide)
      (by norm_num) (by norm_num),
    watermark_bounds_confirmed.2.2.2.2.1 watermarkDefault "voffset_-500" (-500) (by decide)
      (by decide) (by norm_num) (by norm_num),
    watermark_bounds_confirmed.2.2.2.2.2.1 watermarkDefault "interval_1000" 1000 (by decide)
      (by decide) (by norm_num) (by norm_num),
    watermark_bounds_confirmed.2.2.2.2.2.2.1 watermarkDefault "size_12" 12 (by decide)
      (by decide) (by norm_num) (by norm_num),
    (watermark_bounds_confirmed.2.2.2.2.2.2.2 ["watermark", "text_5L2g5aW9", "rotate_361"]
      "rotate_361" 361 (by decide) (by decide)).1 (by decide) (by norm_num),
    (watermark_bounds_confirmed.2.2.2.2.2.2.2 ["watermark", "text_5L2g5aW9", "x_5000"]
      "x_5000" 5000 (by decide) (by decide)).2.1 (by decide) (by norm_num),
    (watermark_bounds_confirmed.2.2.2.2.2.2.2 ["watermark", "text_5L2g5aW9", "y_5000"]
      "y_5000" 5000 (by decide) (by decide)).2.2.1 (by decide) (by norm_num),
    (watermark_bounds_confirmed.2.2.2.2.2.2.2 ["watermark", "text_5L2g5aW9", "voffset_-1001"]
      "voffset_-1001" (-1001) (by decide) (by decide)).2.2.2.1 (by decide) (by norm_num),
    (watermark_bounds_confirmed.2.2.2.2.2.2.2 ["watermark", "text_5L2g5aW9", "interval_1001"]
      "interval_1001" 1001 (by decide) (by decide)).2.2.2.2.1 (by decide) (by norm_num),
    (watermark_bounds_confirmed.2.2.2.2.2.2.2 ["watermark", "text_5L2g5aW9", "size_1001"]
      "size_1001" 1001 (by decide) (by decide)).2.2.2.2.2 (by decide) (by norm_num)⟩

/-- Claim C5, counterexample: with gravity southwest, an explicit y of 0 and
defined nonzero dimensions, the claimed rule resolves y to the flipped value
80, but the source treats the falsy y=0 as unset and leaves the position
unresolved. -/
theorem calculateImgPos_truthiness_cex :
    WatermarkAction.calculateImgPos imgPosCexOpt imgPosCexMeta imgPosCexMark
      ≠ calculateImgPosSpec imgPosCexOpt imgPosCexMeta imgPosCexMark ∧
    WatermarkAction.calculateImgPos imgPosCexOpt imgPosCexMeta imgPosCexMark
      = { x := none, y := none } ∧
    calculateImgPosSpec imgPosCexOpt imgPosCexMeta imgPosCexMark
      = { x := none, y := some (JNum.num 80) } := by
  have hns : ¬ (("southwest" : String) = "north" ∨ ("southwest" : String) = "south") := by
    decide
  have hewc : ¬ (("southwest" : String) = "east" ∨ ("southwest" : String) = "west" ∨
      ("southwest" : String) = "center") := by decide
  have hA : WatermarkAction.calculateImgPos imgPosCexOpt imgPosCexMeta imgPosCexMark
      = { x := none, y := none } := by
    simp only [WatermarkAction.calculateImgPos, imgPosCexOpt, imgPosCexMeta, imgPosCexMark,
      watermarkDefault]
    norm_num [jtruthyO, jtruthyN, hns, hewc]
  have hB : calculateImgPosSpec imgPosCexOpt imgPosCexMeta imgPosCexMark
      = { x := none, y := some (JNum.num 80) } := by
    simp only [calculateImgPosSpec, imgPosCexOpt, imgPosCexMeta, imgPosCexMark,
      watermarkDefault]
    norm_num [JNum.sub, strStarts, strEnds, hns, hewc]
  refine ⟨?_, hA, hB⟩
  rw [hA, hB]
  simp

/-- Claim C5 (amended): calculateImgPos equals the flat description in which
an explicit x or y is honored only when truthy (present, nonzero and not
NaN), the vertical position for north and south gravities falls back to the
top or bottom edge whenever the intermediate vertical result is falsy, and
everything else is as claimed. -/
theorem calculateImgPos_amended (opt : WatermarkOpts) (meta markMeta : Metadata) :
    WatermarkAction.calculateImgPos opt meta markMeta
      = calculateImgPosAmendedDef opt meta markMeta := by
  rcases markMeta with ⟨amw, amh⟩
  rcases meta with ⟨mw, mh⟩
  unfold WatermarkAction.calculateImgPos calculateImgPosAmendedDef
  rcases amw with _ | aw <;> rcases mw with _ | w <;> rcases amh with _ | ah <;>
    rcases mh with _ | h <;> try rfl
  by_cases hg : opt.g ∈ (["north", "south"] : List String) <;>
    simp [hg]

/-- Claim C9, counterexample: with the AutoWebp feature flag set, processing
a gif format target changes the feature-flag set (AutoWebp is cleared), so
process is not a complete no-op on the image context. -/
theorem format_process_gif_cex :
    FormatAction.process fmtNoPages fmtPage0 fmtEncode fmtCtxCex ["format", "gif"]
      = Except.ok { image := 7, features := { autoWebp := false, readAllAnimatedFrames := true } } ∧
    FormatAction.process fmtNoPages fmtPage0 fmtEncode fmtCtxCex ["format", "gif"]
      ≠ Except.ok fmtCtxCex := ⟨by decide, by decide⟩

/-- Claim C9 (amended): for a gif target, process leaves the image handle and
the other feature flags unchanged (in particular the image is not re-encoded)
but always ends with the AutoWebp feature flag cleared. -/
theorem format_process_gif_amended {α : Type} (metaPages : α → Option ℕ)
    (openPage0 : α → α) (encode : String → α → α) (ctx : ImageCtx α) (p0 : String) :
    FormatAction.process metaPages openPage0 encode ctx [p0, "gif"]
      = Except.ok { ctx with features := { ctx.features with autoWebp := false } } := by
  rcases ctx with ⟨img, ⟨aw, ra⟩⟩
  cases aw <;> simp [FormatAction.process, FormatAction.validate, SUPPORTED_FORMAT]

/-- Claim C10: calculateMixedGravity is total on all integer order and align
values, treats any order other than 1 as 0 and any align other than 1 or 2 as
0, and always returns a horizontally opposed anchor pair of one vertical
band. -/
theorem calculateMixedGravity_total (o a : ℤ) :
    (o ≠ 1 →
      WatermarkAction.calculateMixedGravity (wmWithOrderAlign (JNum.num o) (JNum.num a))
        = WatermarkAction.calculateMixedGravity (wmWithOrderAlign (JNum.num 0) (JNum.num a))) ∧
    (a ≠ 1 ∧ a ≠ 2 →
      WatermarkAction.calculateMixedGravity (wmWithOrderAlign (JNum.num o) (JNum.num a))
        = WatermarkAction.calculateMixedGravity (wmWithOrderAlign (JNum.num o) (JNum.num 0))) ∧
    ((WatermarkAction.calculateMixedGravity (wmWithOrderAlign (JNum.num o) (JNum.num a))).imgGravity,
      (WatermarkAction.calculateMixedGravity (wmWithOrderAlign (JNum.num o) (JNum.num a))).textGravity)
      ∈ opposedAnchorPairs := by
  have h00 : jeqc (JNum.num 0) 1 = false := by decide
  have h01 : jeqc (JNum.num 0) 2 = false := by decide
  refine ⟨?_, ?_, ?_⟩
  · intro h
    have ho : jeqc (JNum.num (o : ℚ)) 1 = false := by
      simp only [jeqc, decide_eq_false_iff_not]
      exact_mod_cast h
    simp [WatermarkAction.calculateMixedGravity, wmWithOrderAlign, ho, h00]
  · rintro ⟨h1, h2⟩
    have ha1 : jeqc (JNum.num (a : ℚ)) 1 = false := by
      simp only [jeqc, decide_eq_false_iff_not]
      exact_mod_cast h1
    have ha2 : jeqc (JNum.num (a : ℚ)) 2 = false := by
      simp only [jeqc, decide_eq_false_iff_not]
      exact_mod_cast h2
    simp [WatermarkAction.calculateMixedGravity, wmWithOrderAlign, ha1, ha2, h00, h01]
  · cases hB : jeqc (JNum.num (o : ℚ)) 1 <;>
      cases hA1 : jeqc (JNum.num (a : ℚ)) 1 <;>
      cases hA2 : jeqc (JNum.num (a : ℚ)) 2 <;>
      simp [WatermarkAction.calculateMixedGravity, wmWithOrderAlign, hB, hA1, hA2,
        opposedAnchorPairs]

/-- Witness for claim C10 at the concrete out-of-table values order=7 and
align=9. -/
theorem calculateMixedGravity_total_witness :
    (WatermarkAction.calculateMixedGravity
        (wmWithOrderAlign (JNum.num ((7 : ℤ) : ℚ)) (JNum.num ((9 : ℤ) : ℚ)))
      = WatermarkAction.calculateMixedGravity
        (wmWithOrderAlign (JNum.num ((0 : ℤ) : ℚ)) (JNum.num ((9 : ℤ) : ℚ)))) ∧
    (WatermarkAction.calculateMixedGravity
        (wmWithOrderAlign (JNum.num ((7 : ℤ) : ℚ)) (JNum.num ((9 : ℤ) : ℚ)))
      = WatermarkAction.calculateMixedGravity
        (wmWithOrderAlign (JNum.num ((7 : ℤ) : ℚ)) (JNum.num ((0 : ℤ) : ℚ)))) ∧
    ((WatermarkAction.calculateMixedGravity
        (wmWithOrderAlign (JNum.num ((7 : ℤ) : ℚ)) (JNum.num ((9 : ℤ) : ℚ)))).imgGravity,
      (WatermarkAction.calculateMixedGravity
        (wmWithOrderAlign (JNum.num ((7 : ℤ) : ℚ)) (JNum.num ((9 : ℤ) : ℚ)))).textGravity)
      ∈ opposedAnchorPairs :=
  ⟨(calculateMixedGravity_total 7 9).1 (by decide),
   (calculateMixedGravity_total 7 9).2.1 ⟨by decide, by decide⟩,
   (calculateMixedGravity_total 7 9).2.2⟩
